import Mathlib

/-!
Shallow embedding of the FluxControl rate-limiting engine
(`server/rate-limiter.ts` and `server/storage.ts`).

Conventions of the embedding:
* JavaScript `number` values that stay integral (epoch milliseconds,
  request counts, limits) are modelled as `Int`.
* `Date` values are modelled by their epoch-millisecond value.
* JS `Map` objects are modelled as association lists with `Map.set`
  insertion-order semantics (`mapSet`).
* Executions that would produce `NaN`/`undefined`-poisoned values in JS
  (e.g. `parseInt` returning `NaN`, or indexing `times[0]` of an empty
  array) are modelled as `none`; no claim below concerns those corners.
* `Math.floor` of a real division is `Int.fdiv`; `Math.ceil (a / b)` for
  positive `b` is `ceilDiv a b`.
-/

namespace FluxControl

/-- Whitespace characters skipped by JS `parseInt` (common subset). -/
def jsWhitespace (c : Char) : Bool :=
  c = ' ' || c = '\t' || c = '\n' || c = '\r'

/-- Value of a list of decimal digit characters, most significant first. -/
def digitsToNat (ds : List Char) : Nat :=
  ds.foldl (fun a c => 10 * a + (c.toNat - 48)) 0

/-- Longest decimal-digit prefix, `none` when there is none (JS `NaN`). -/
def parseDecDigits (cs : List Char) : Option Nat :=
  let ds := cs.takeWhile Char.isDigit
  if ds.isEmpty then none else some (digitsToNat ds)

/-- Decimal fragment of JS `parseInt` (radix 10, `none` models `NaN`):
skip leading whitespace, optional sign, longest digit prefix. -/
def jsParseIntList (cs : List Char) : Option Int :=
  match cs.dropWhile jsWhitespace with
  | [] => none
  | c :: rest =>
    if c = '-' then (parseDecDigits rest).map (fun n => -(n : Int))
    else if c = '+' then (parseDecDigits rest).map (fun n => (n : Int))
    else (parseDecDigits (c :: rest)).map (fun n => (n : Int))

/-- JS `parseInt(s)` on a string, decimal fragment. -/
def jsParseInt (s : String) : Option Int :=
  jsParseIntList s.data

/-- Embedding of `parseTimeWindow` (identical private method of all three limiter
classes): `timeWindow.slice(-1)` is the last character, the numeric part
is `parseInt(timeWindow.slice(0, -1))`; unknown unit defaults to one
minute.  `none` models the `NaN` that JS produces when the unit is known
but the numeric part does not parse. -/
def parseTimeWindow (timeWindow : String) : Option Int :=
  match timeWindow.data.getLast? with
  | none => some 60000
  | some u =>
    if u = 's' then (jsParseIntList timeWindow.data.dropLast).map (· * 1000)
    else if u = 'm' then (jsParseIntList timeWindow.data.dropLast).map (· * (60 * 1000))
    else if u = 'h' then (jsParseIntList timeWindow.data.dropLast).map (· * (60 * 60 * 1000))
    else if u = 'd' then (jsParseIntList timeWindow.data.dropLast).map (· * (24 * 60 * 60 * 1000))
    else some 60000

/-- Integer form of `Math.ceil (a / b)` for positive `b`. -/
def ceilDiv (a b : Int) : Int :=
  -((-a).fdiv b)

/-- JS `Math.floor (a / b)` for integers is floor division. -/
def floorDiv (a b : Int) : Int :=
  a.fdiv b

/-- Association-list lookup, mirroring JS `Map.get`. -/
def mapGet {κ α : Type} [DecidableEq κ] (m : List (κ × α)) (k : κ) : Option α :=
  (m.find? (fun p => p.1 = k)).map (fun p => p.2)

/-- Association-list update, mirroring JS `Map.set`: replace in place
when the key is present, otherwise append. -/
def mapSet {κ α : Type} [DecidableEq κ] (m : List (κ × α)) (k : κ) (v : α) : List (κ × α) :=
  if m.any (fun p => p.1 = k) then
    m.map (fun p => if p.1 = k then (k, v) else p)
  else
    m ++ [(k, v)]

/-- Embedding of `RateLimitConfig` rows of the storage (engine-relevant fields). -/
structure RateLimitConfig where
  id : Nat
  name : String
  algorithm : String
  requestLimit : Int
  timeWindow : String
  clientIdType : String
  isActive : Bool
  createdAt : Int
  deriving DecidableEq, Repr

/-- Embedding of the `InsertRateLimitConfig` payload accepted by `updateRateLimitConfig`. -/
structure InsertRateLimitConfig where
  name : Option String
  algorithm : String
  requestLimit : Int
  timeWindow : String
  clientIdType : String
  isActive : Option Bool
  deriving DecidableEq, Repr

/-- Embedding of `ActiveRateLimit` rows: the per-client mutable state records. -/
structure ActiveRateLimit where
  id : Nat
  clientId : String
  requestCount : Int
  resetTime : Int
  status : String
  lastRequest : Int
  deriving DecidableEq, Repr

/-- Embedding of the `InsertActiveRateLimit` payload as built by the three limiters. -/
structure InsertActiveRateLimit where
  clientId : String
  requestCount : Int
  resetTime : Int
  status : String
  deriving DecidableEq, Repr

/-- Embedding of `RateLimitViolation` records. -/
structure Violation where
  id : Nat
  clientId : String
  endpoint : String
  attempts : Int
  timestamp : Int
  isBlocked : Bool
  deriving DecidableEq, Repr

/-- Embedding of the `InsertRateLimitViolation` payload as built by the service. -/
structure InsertViolation where
  clientId : String
  endpoint : String
  attempts : Int
  isBlocked : Bool
  deriving DecidableEq, Repr

/-- The mutable `SystemStats` counters kept in `MemStorage.stats`. -/
structure SystemStats where
  totalRequests : Int
  rateLimitedRequests : Int
  avgResponseTime : Int
  deriving DecidableEq, Repr

/-- Embedding of the `DashboardStats` view returned by `getSystemStats`. -/
structure DashboardStats where
  totalRequests : Int
  rateLimited : Int
  activeClients : Nat
  avgResponseTime : Int
  deriving DecidableEq, Repr

/-- The state of `MemStorage` (storage.ts). -/
structure MemStorage where
  configs : List (Nat × RateLimitConfig)
  activeLimits : List (String × ActiveRateLimit)
  violations : List Violation
  stats : SystemStats
  currentId : Nat
  deriving DecidableEq, Repr

/-- Embedding of `MemStorage.getActiveRateLimit`. -/
def getActiveRateLimit (s : MemStorage) (clientId : String) : Option ActiveRateLimit :=
  mapGet s.activeLimits clientId

/-- Embedding of `MemStorage.getRateLimitConfig`: the first config (insertion order)
whose `isActive` flag is set. -/
def getRateLimitConfig (s : MemStorage) : Option RateLimitConfig :=
  ((s.configs.map (fun p => p.2)).find? (fun c => c.isActive)).map id

/-- Embedding of `MemStorage.upsertActiveRateLimit`: keep the existing id when the
client already has a record, stamp `lastRequest` with the current time. -/
def upsertActiveRateLimit (s : MemStorage) (d : InsertActiveRateLimit) (now : Int) :
    MemStorage × ActiveRateLimit :=
  let existing := mapGet s.activeLimits d.clientId
  let id := match existing with
    | some e => e.id
    | none => s.currentId
  let currentId' := match existing with
    | some _ => s.currentId
    | none => s.currentId + 1
  let limit : ActiveRateLimit :=
    { id := id, clientId := d.clientId, requestCount := d.requestCount,
      resetTime := d.resetTime, status := d.status, lastRequest := now }
  ({ s with activeLimits := mapSet s.activeLimits d.clientId limit,
            currentId := currentId' }, limit)

/-- Embedding of `MemStorage.updateRateLimitConfig`: mint a fresh id, deactivate every
existing config, clear the whole active-limit table, install the new
config. -/
def updateRateLimitConfig (s : MemStorage) (d : InsertRateLimitConfig) (now : Int) :
    MemStorage × RateLimitConfig :=
  let id := s.currentId
  let cfg : RateLimitConfig :=
    { id := id, name := d.name.getD "Default Config", algorithm := d.algorithm,
      requestLimit := d.requestLimit, timeWindow := d.timeWindow,
      clientIdType := d.clientIdType, isActive := d.isActive.getD true,
      createdAt := now }
  let deactivated := s.configs.map (fun p => (p.1, { p.2 with isActive := false }))
  ({ s with currentId := s.currentId + 1,
            configs := mapSet deactivated id cfg,
            activeLimits := [] }, cfg)

/-- Embedding of `MemStorage.createViolation`: prepend (`unshift`) and keep only the
most recent 100 records. -/
def createViolation (s : MemStorage) (d : InsertViolation) (now : Int) :
    MemStorage × Violation :=
  let id := s.currentId
  let v : Violation :=
    { id := id, clientId := d.clientId, endpoint := d.endpoint,
      attempts := d.attempts, timestamp := now, isBlocked := d.isBlocked }
  let vs := v :: s.violations
  let vs := if vs.length > 100 then vs.take 100 else vs
  ({ s with violations := vs, currentId := s.currentId + 1 }, v)

/-- Embedding of `MemStorage.getSystemStats`: `activeClients` is the live table size. -/
def getSystemStats (s : MemStorage) : DashboardStats :=
  { totalRequests := s.stats.totalRequests,
    rateLimited := s.stats.rateLimitedRequests,
    activeClients := s.activeLimits.length,
    avgResponseTime := s.stats.avgResponseTime }

/-- Embedding of `MemStorage.updateSystemStats` restricted to the two partial updates
the service actually issues (`totalRequests` / `rateLimitedRequests`). -/
def updateSystemStats (s : MemStorage) (total? rateLimited? : Option Int) : MemStorage :=
  { s with stats :=
      { s.stats with
          totalRequests := total?.getD s.stats.totalRequests,
          rateLimitedRequests := rateLimited?.getD s.stats.rateLimitedRequests } }

/-- The decision record (`RateLimitStatus`). -/
structure RateLimitStatus where
  allowed : Bool
  remaining : Int
  resetTime : Int
  retryAfter : Option Int
  deriving DecidableEq, Repr

/-- Embedding of `TokenBucketLimiter.checkLimit`. -/
def tokenBucketCheckLimit (s : MemStorage) (clientId : String) (cfg : RateLimitConfig)
    (now : Int) : Option (RateLimitStatus × MemStorage) :=
  match parseTimeWindow cfg.timeWindow with
  | none => none
  | some windowMs =>
    match getActiveRateLimit s clientId with
    | none =>
      -- First request: new bucket with full tokens, one consumed.
      let resetTime := now + windowMs
      let s' := (upsertActiveRateLimit s
        { clientId := clientId, requestCount := 1, resetTime := resetTime,
          status := "active" } now).1
      some ({ allowed := true, remaining := cfg.requestLimit - 1,
              resetTime := resetTime, retryAfter := none }, s')
    | some activeLimit =>
      if now ≥ activeLimit.resetTime then
        -- Refill: reset count and extend the window.
        let resetTime := now + windowMs
        let s' := (upsertActiveRateLimit s
          { clientId := clientId, requestCount := 1, resetTime := resetTime,
            status := "active" } now).1
        some ({ allowed := true, remaining := cfg.requestLimit - 1,
                resetTime := resetTime, retryAfter := none }, s')
      else if activeLimit.requestCount ≥ cfg.requestLimit then
        -- No tokens available: denied, nothing written.
        some ({ allowed := false, remaining := 0,
                resetTime := activeLimit.resetTime,
                retryAfter := some (ceilDiv (activeLimit.resetTime - now) 1000) }, s)
      else
        -- Consume a token.  `newCount >= limit * 0.8` stated over ℤ.
        let newCount := activeLimit.requestCount + 1
        let status := if 5 * newCount ≥ 4 * cfg.requestLimit then "warning" else "active"
        let s' := (upsertActiveRateLimit s
          { clientId := clientId, requestCount := newCount,
            resetTime := activeLimit.resetTime, status := status } now).1
        some ({ allowed := true, remaining := cfg.requestLimit - newCount,
                resetTime := activeLimit.resetTime, retryAfter := none }, s')

/-- The `SlidingWindowLimiter`'s private per-instance `requestTimes` map. -/
def SlidingTimes : Type := List (String × List Int)

instance : DecidableEq SlidingTimes := by
  unfold SlidingTimes; infer_instance

/-- Embedding of `SlidingWindowLimiter.checkLimit`.  Besides the shared storage it
reads and writes the limiter's private `requestTimes` map. -/
def slidingWindowCheckLimit (s : MemStorage) (times : SlidingTimes) (clientId : String)
    (cfg : RateLimitConfig) (now : Int) :
    Option (RateLimitStatus × MemStorage × SlidingTimes) :=
  match parseTimeWindow cfg.timeWindow with
  | none => none
  | some windowMs =>
    let windowStart := now - windowMs
    let ts := ((mapGet times clientId).getD []).filter (fun t => windowStart < t)
    if (ts.length : Int) ≥ cfg.requestLimit then
      match ts.head? with
      | none => none
      | some oldest =>
        let retryAfter := ceilDiv (oldest - windowStart) 1000
        let s' := (upsertActiveRateLimit s
          { clientId := clientId, requestCount := (ts.length : Int) + 1,
            resetTime := oldest + windowMs, status := "blocked" } now).1
        -- The denied request is not recorded: `requestTimes` untouched.
        some ({ allowed := false, remaining := 0, resetTime := oldest + windowMs,
                retryAfter := some retryAfter }, s', times)
    else
      let ts' := ts ++ [now]
      let times' := mapSet times clientId ts'
      let remaining := cfg.requestLimit - (ts'.length : Int)
      let status := if 5 * remaining ≤ cfg.requestLimit then "warning" else "active"
      let s' := (upsertActiveRateLimit s
        { clientId := clientId, requestCount := (ts'.length : Int),
          resetTime := now + windowMs, status := status } now).1
      some ({ allowed := true, remaining := remaining, resetTime := now + windowMs,
              retryAfter := none }, s', times')

/-- Embedding of `FixedWindowLimiter.checkLimit`.  Note the boundary of a fresh
window is the calendar-aligned `windowEnd`, not `now + windowMs`. -/
def fixedWindowCheckLimit (s : MemStorage) (clientId : String) (cfg : RateLimitConfig)
    (now : Int) : Option (RateLimitStatus × MemStorage) :=
  match parseTimeWindow cfg.timeWindow with
  | none => none
  | some windowMs =>
    let windowStart := floorDiv now windowMs * windowMs
    let windowEnd := windowStart + windowMs
    match getActiveRateLimit s clientId with
    | none =>
      let s' := (upsertActiveRateLimit s
        { clientId := clientId, requestCount := 1, resetTime := windowEnd,
          status := "active" } now).1
      some ({ allowed := true, remaining := cfg.requestLimit - 1,
              resetTime := windowEnd, retryAfter := none }, s')
    | some activeLimit =>
      if activeLimit.resetTime ≤ now then
        -- Expired window: start a new one.
        let s' := (upsertActiveRateLimit s
          { clientId := clientId, requestCount := 1, resetTime := windowEnd,
            status := "active" } now).1
        some ({ allowed := true, remaining := cfg.requestLimit - 1,
                resetTime := windowEnd, retryAfter := none }, s')
      else if activeLimit.requestCount ≥ cfg.requestLimit then
        -- Denied, but the denial is still tallied into `requestCount`.
        let s' := (upsertActiveRateLimit s
          { clientId := clientId, requestCount := activeLimit.requestCount + 1,
            resetTime := activeLimit.resetTime, status := "blocked" } now).1
        some ({ allowed := false, remaining := 0,
                resetTime := activeLimit.resetTime,
                retryAfter := some (ceilDiv (activeLimit.resetTime - now) 1000) }, s')
      else
        let newCount := activeLimit.requestCount + 1
        let status := if 5 * newCount ≥ 4 * cfg.requestLimit then "warning" else "active"
        let s' := (upsertActiveRateLimit s
          { clientId := clientId, requestCount := newCount,
            resetTime := activeLimit.resetTime, status := status } now).1
        some ({ allowed := true, remaining := cfg.requestLimit - newCount,
                resetTime := activeLimit.resetTime, retryAfter := none }, s')

/-- Combined engine state: the shared storage plus the sliding-window
limiter's private timestamp map. -/
structure EngineState where
  store : MemStorage
  slidingTimes : SlidingTimes
  deriving DecidableEq

/-- The algorithm dispatch of `RateLimiterService` (`algorithms` map). -/
def dispatchAlgorithm (store : MemStorage) (sliding : SlidingTimes) (clientId : String)
    (cfg : RateLimitConfig) (now : Int) :
    Option (RateLimitStatus × MemStorage × SlidingTimes) :=
  if cfg.algorithm = "token-bucket" then
    (tokenBucketCheckLimit store clientId cfg now).map (fun p => (p.1, p.2, sliding))
  else if cfg.algorithm = "sliding-window" then
    slidingWindowCheckLimit store sliding clientId cfg now
  else if cfg.algorithm = "fixed-window" then
    (fixedWindowCheckLimit store clientId cfg now).map (fun p => (p.1, p.2, sliding))
  else none

/-- Embedding of `RateLimiterService.checkRateLimit`: load the active policy, run the
selected algorithm, bump `totalRequests`, and on a denial record a
violation and bump `rateLimitedRequests`.  `none` models the thrown
`NoActivePolicy`/`UnknownAlgorithm` errors (and NaN-poisoned runs). -/
def checkRateLimit (es : EngineState) (clientId endpoint : String) (now : Int) :
    Option (RateLimitStatus × EngineState) :=
  match getRateLimitConfig es.store with
  | none => none
  | some config =>
    match dispatchAlgorithm es.store es.slidingTimes clientId config now with
    | none => none
    | some (result, store1, sliding1) =>
      let store2 := updateSystemStats store1
        (some ((getSystemStats store1).totalRequests + 1)) none
      if result.allowed then
        some (result, ⟨store2, sliding1⟩)
      else
        let store3 := (createViolation store2
          { clientId := clientId, endpoint := endpoint, attempts := 1,
            isBlocked := false } now).1
        let store4 := updateSystemStats store3 none
          (some ((getSystemStats store3).rateLimited + 1))
        some (result, ⟨store4, sliding1⟩)

/-- Request metadata consumed by `getClientId`; `none` models an absent
(`undefined`) field, `some ""` an empty string (both JS-falsy). -/
structure Req where
  ip : Option String
  xForwardedFor : Option String
  xRealIp : Option String
  remoteAddress : Option String
  xApiKey : Option String
  authorization : Option String
  userId : Option String
  xUserId : Option String
  userIdHeader : Option String
  deriving DecidableEq, Repr

/-- JS truthiness of an optional string (`undefined` and `""` are falsy). -/
def jsTruthy (o : Option String) : Bool :=
  match o with
  | none => false
  | some s => s ≠ ""

/-- JS `a || b` on optional strings. -/
def jsOr (a b : Option String) : Option String :=
  if jsTruthy a then a else b

/-- JS `a || "lit"`: final literal fallback of a truthiness chain. -/
def jsSelect (a : Option String) (d : String) : String :=
  match a with
  | none => d
  | some s => if s = "" then d else s

/-- JS `String.split` with a one-character separator, on char lists
(splits at every occurrence, keeping empty fields; never empty). -/
def splitOnChar (sep : Char) : List Char → List (List Char)
  | [] => [[]]
  | c :: rest =>
    if c = sep then [] :: splitOnChar sep rest
    else
      match splitOnChar sep rest with
      | [] => [[c]]
      | g :: gs => (c :: g) :: gs

/-- JS `String.trim` on char lists (common whitespace subset). -/
def jsTrimList (cs : List Char) : List Char :=
  ((cs.dropWhile jsWhitespace).reverse.dropWhile jsWhitespace).reverse

/-- Replace the first occurrence of `pat` by `r` in a char list —
the semantics of JS `String.replace` with a string pattern. -/
def replaceFirstAux (pat r : List Char) : List Char → List Char
  | [] => []
  | c :: rest =>
    if pat.isPrefixOf (c :: rest) then r ++ (c :: rest).drop pat.length
    else c :: replaceFirstAux pat r rest

/-- JS `String.replace` with a string pattern: first occurrence only. -/
def replaceFirst (s pat r : String) : String :=
  String.mk (replaceFirstAux pat.data r.data s.data)

/-- Embedding of `RateLimiterService.getClientId`. -/
def getClientId (req : Req) (clientIdType : String) : String :=
  if clientIdType = "ip" then
    jsSelect
      (jsOr req.ip
        (jsOr (req.xForwardedFor.map
            (fun s => String.mk (jsTrimList ((splitOnChar ',' s.data).headD []))))
          (jsOr req.xRealIp req.remoteAddress)))
      "127.0.0.1"
  else if clientIdType = "api-key" then
    jsSelect
      (jsOr req.xApiKey (req.authorization.map (fun s => replaceFirst s "Bearer " "")))
      "anonymous-api"
  else if clientIdType = "user-id" then
    jsSelect (jsOr req.userId (jsOr req.xUserId req.userIdHeader)) "anonymous-user"
  else
    jsSelect req.ip "127.0.0.1"

/-! ### Helper lemmas -/

theorem mapGet_mapSet_self {κ α : Type} [DecidableEq κ] (m : List (κ × α)) (k : κ) (v : α) :
    mapGet (mapSet m k v) k = some v := by
  unfold mapSet
  split
  · rename_i h
    induction m with
    | nil => simp at h
    | cons p t ih =>
      by_cases hp : p.1 = k
      · simp [mapGet, List.find?, hp]
      · simp only [List.any_cons, Bool.or_eq_true, decide_eq_true_eq] at h
        rcases h with h1 | h2
        · exact absurd h1 hp
        · simpa [mapGet, List.find?, hp] using ih h2
  · rename_i h
    have hnone : m.find? (fun p => p.1 = k) = none := by
      rw [List.find?_eq_none]
      intro p hp
      simp only [decide_eq_true_eq]
      intro hk
      exact h (List.any_eq_true.2 ⟨p, hp, by simp [hk]⟩)
    simp [mapGet, List.find?_append, hnone, List.find?]

theorem digit_not_ws (c : Char) (h : c.isDigit = true) : jsWhitespace c = false := by
  simp only [jsWhitespace, Bool.or_eq_false_iff, decide_eq_false_iff_not]
  refine ⟨⟨⟨?_, ?_⟩, ?_⟩, ?_⟩ <;> (rintro rfl; exact absurd h (by decide))

theorem jsParseIntList_digits (ds : List Char) (h1 : ds ≠ [])
    (h2 : ∀ c ∈ ds, c.isDigit = true) :
    jsParseIntList ds = some ((digitsToNat ds : Int)) := by
  obtain ⟨c, rest, rfl⟩ := List.exists_cons_of_ne_nil h1
  have hc : c.isDigit = true := h2 c (by simp)
  have hws : jsWhitespace c = false := digit_not_ws c hc
  have hminus : ¬ c = '-' := by rintro rfl; exact absurd hc (by decide)
  have hplus : ¬ c = '+' := by rintro rfl; exact absurd hc (by decide)
  have htake : (c :: rest).takeWhile Char.isDigit = c :: rest :=
    List.takeWhile_eq_self_iff.mpr h2
  simp [jsParseIntList, List.dropWhile_cons, hws, hminus, hplus, parseDecDigits, htake]

theorem jsParseIntList_neg_digits (ds : List Char) (h1 : ds ≠ [])
    (h2 : ∀ c ∈ ds, c.isDigit = true) :
    jsParseIntList ('-' :: ds) = some (-(digitsToNat ds : Int)) := by
  have htake : ds.takeWhile Char.isDigit = ds := List.takeWhile_eq_self_iff.mpr h2
  simp [jsParseIntList, List.dropWhile_cons, parseDecDigits, htake, h1,
    show jsWhitespace '-' = false from by decide]

theorem upsert_get (s : MemStorage) (d : InsertActiveRateLimit) (now : Int) :
    getActiveRateLimit (upsertActiveRateLimit s d now).1 d.clientId =
      some (upsertActiveRateLimit s d now).2 := by
  unfold getActiveRateLimit upsertActiveRateLimit
  exact mapGet_mapSet_self ..

theorem upsert_snd_fields (s : MemStorage) (d : InsertActiveRateLimit) (now : Int) :
    (upsertActiveRateLimit s d now).2.clientId = d.clientId ∧
    (upsertActiveRateLimit s d now).2.requestCount = d.requestCount ∧
    (upsertActiveRateLimit s d now).2.resetTime = d.resetTime ∧
    (upsertActiveRateLimit s d now).2.status = d.status ∧
    (upsertActiveRateLimit s d now).2.lastRequest = now :=
  ⟨rfl, rfl, rfl, rfl, rfl⟩

theorem parseTimeWindow_unit_s (ds : List Char) (h1 : ds ≠ [])
    (h2 : ∀ c ∈ ds, c.isDigit = true) :
    parseTimeWindow (String.mk (ds ++ ['s'])) = some ((digitsToNat ds : Int) * 1000) := by
  simp [parseTimeWindow, List.getLast?_concat, List.dropLast_concat,
    jsParseIntList_digits ds h1 h2]

theorem parseTimeWindow_unit_m (ds : List Char) (h1 : ds ≠ [])
    (h2 : ∀ c ∈ ds, c.isDigit = true) :
    parseTimeWindow (String.mk (ds ++ ['m'])) = some ((digitsToNat ds : Int) * 60000) := by
  simp [parseTimeWindow, List.getLast?_concat, List.dropLast_concat,
    jsParseIntList_digits ds h1 h2]

theorem parseTimeWindow_unit_h (ds : List Char) (h1 : ds ≠ [])
    (h2 : ∀ c ∈ ds, c.isDigit = true) :
    parseTimeWindow (String.mk (ds ++ ['h'])) = some ((digitsToNat ds : Int) * 3600000) := by
  simp [parseTimeWindow, List.getLast?_concat, List.dropLast_concat,
    jsParseIntList_digits ds h1 h2]

theorem parseTimeWindow_unit_d (ds : List Char) (h1 : ds ≠ [])
    (h2 : ∀ c ∈ ds, c.isDigit = true) :
    parseTimeWindow (String.mk (ds ++ ['d'])) = some ((digitsToNat ds : Int) * 86400000) := by
  simp [parseTimeWindow, List.getLast?_concat, List.dropLast_concat,
    jsParseIntList_digits ds h1 h2]

theorem parseTimeWindow_neg_s (ds : List Char) (h1 : ds ≠ [])
    (h2 : ∀ c ∈ ds, c.isDigit = true) :
    parseTimeWindow (String.mk (('-' :: ds) ++ ['s'])) =
      some (-(digitsToNat ds : Int) * 1000) := by
  have hg : ('-' :: (ds ++ ['s'])).getLast? = some 's' := by
    rw [← List.cons_append]; exact List.getLast?_concat _
  have hdl : ('-' :: (ds ++ ['s'])).dropLast = '-' :: ds := by
    rw [← List.cons_append]; exact List.dropLast_concat
  simp [parseTimeWindow, hg, hdl, jsParseIntList_neg_digits ds h1 h2]

theorem parseTimeWindow_default (cs : List Char)
    (h : ∀ u, cs.getLast? = some u → u ≠ 's' ∧ u ≠ 'm' ∧ u ≠ 'h' ∧ u ≠ 'd') :
    parseTimeWindow (String.mk cs) = some 60000 := by
  unfold parseTimeWindow
  cases hl : cs.getLast? with
  | none => simp
  | some u =>
    obtain ⟨hs, hm, hh, hd⟩ := h u hl
    simp [hs, hm, hh, hd]

theorem tokenBucket_frame (s : MemStorage) (c : String) (cfg : RateLimitConfig)
    (now : Int) (r : RateLimitStatus) (s' : MemStorage)
    (h : tokenBucketCheckLimit s c cfg now = some (r, s')) :
    s'.stats = s.stats ∧ s'.violations = s.violations ∧ s'.configs = s.configs := by
  unfold tokenBucketCheckLimit at h
  repeat' split at h
  all_goals try exact Option.noConfusion h
  all_goals (try dsimp only at h); cases h; exact ⟨rfl, rfl, rfl⟩

theorem slidingWindow_frame (s : MemStorage) (times : SlidingTimes) (c : String)
    (cfg : RateLimitConfig) (now : Int) (r : RateLimitStatus) (s' : MemStorage)
    (times' : SlidingTimes)
    (h : slidingWindowCheckLimit s times c cfg now = some (r, s', times')) :
    s'.stats = s.stats ∧ s'.violations = s.violations ∧ s'.configs = s.configs := by
  unfold slidingWindowCheckLimit at h
  repeat' ((try dsimp only at h); split at h)
  all_goals try exact Option.noConfusion h
  all_goals (try dsimp only at h); cases h; exact ⟨rfl, rfl, rfl⟩

theorem fixedWindow_frame (s : MemStorage) (c : String) (cfg : RateLimitConfig)
    (now : Int) (r : RateLimitStatus) (s' : MemStorage)
    (h : fixedWindowCheckLimit s c cfg now = some (r, s')) :
    s'.stats = s.stats ∧ s'.violations = s.violations ∧ s'.configs = s.configs := by
  unfold fixedWindowCheckLimit at h
  repeat' ((try dsimp only at h); split at h)
  all_goals try exact Option.noConfusion h
  all_goals (try dsimp only at h); cases h; exact ⟨rfl, rfl, rfl⟩

theorem tokenBucket_shape (s : MemStorage) (c : String) (cfg : RateLimitConfig)
    (now : Int) (r : RateLimitStatus) (s' : MemStorage)
    (hlim : 1 ≤ cfg.requestLimit)
    (h : tokenBucketCheckLimit s c cfg now = some (r, s')) :
    (r.allowed = false ↔ r.retryAfter.isSome) ∧ 0 ≤ r.remaining ∧
    (r.allowed = false → r.remaining = 0) := by
  unfold tokenBucketCheckLimit at h
  repeat' ((try dsimp only at h); split at h)
  all_goals try exact Option.noConfusion h
  all_goals (try dsimp only at h); cases h
  all_goals refine ⟨by simp, ?_, by simp⟩
  all_goals (simp_all <;> omega)

theorem slidingWindow_shape (s : MemStorage) (times : SlidingTimes) (c : String)
    (cfg : RateLimitConfig) (now : Int) (r : RateLimitStatus) (s' : MemStorage)
    (times' : SlidingTimes) (hlim : 1 ≤ cfg.requestLimit)
    (h : slidingWindowCheckLimit s times c cfg now = some (r, s', times')) :
    (r.allowed = false ↔ r.retryAfter.isSome) ∧ 0 ≤ r.remaining ∧
    (r.allowed = false → r.remaining = 0) := by
  unfold slidingWindowCheckLimit at h
  repeat' ((try dsimp only at h); split at h)
  all_goals try exact Option.noConfusion h
  all_goals (try dsimp only at h); cases h
  all_goals refine ⟨by simp, ?_, by simp⟩
  all_goals (simp_all <;> omega)

theorem fixedWindow_shape (s : MemStorage) (c : String) (cfg : RateLimitConfig)
    (now : Int) (r : RateLimitStatus) (s' : MemStorage)
    (hlim : 1 ≤ cfg.requestLimit)
    (h : fixedWindowCheckLimit s c cfg now = some (r, s')) :
    (r.allowed = false ↔ r.retryAfter.isSome) ∧ 0 ≤ r.remaining ∧
    (r.allowed = false → r.remaining = 0) := by
  unfold fixedWindowCheckLimit at h
  repeat' ((try dsimp only at h); split at h)
  all_goals try exact Option.noConfusion h
  all_goals (try dsimp only at h); cases h
  all_goals refine ⟨by simp, ?_, by simp⟩
  all_goals (simp_all <;> omega)

theorem dispatch_frame (store : MemStorage) (sliding : SlidingTimes) (c : String)
    (cfg : RateLimitConfig) (now : Int) (r : RateLimitStatus) (s1 : MemStorage)
    (sl1 : SlidingTimes)
    (h : dispatchAlgorithm store sliding c cfg now = some (r, s1, sl1)) :
    s1.stats = store.stats ∧ s1.violations = store.violations ∧ s1.configs = store.configs := by
  unfold dispatchAlgorithm at h
  split at h
  · obtain ⟨⟨r0, s0⟩, htb, heq⟩ := Option.map_eq_some'.1 h
    cases heq
    exact tokenBucket_frame _ _ _ _ _ _ htb
  · split at h
    · exact slidingWindow_frame _ _ _ _ _ _ _ _ h
    · split at h
      · obtain ⟨⟨r0, s0⟩, hfw, heq⟩ := Option.map_eq_some'.1 h
        cases heq
        exact fixedWindow_frame _ _ _ _ _ _ hfw
      · exact Option.noConfusion h

theorem dispatch_shape (store : MemStorage) (sliding : SlidingTimes) (c : String)
    (cfg : RateLimitConfig) (now : Int) (r : RateLimitStatus) (s1 : MemStorage)
    (sl1 : SlidingTimes) (hlim : 1 ≤ cfg.requestLimit)
    (h : dispatchAlgorithm store sliding c cfg now = some (r, s1, sl1)) :
    (r.allowed = false ↔ r.retryAfter.isSome) ∧ 0 ≤ r.remaining ∧
    (r.allowed = false → r.remaining = 0) := by
  unfold dispatchAlgorithm at h
  split at h
  · obtain ⟨⟨r0, s0⟩, htb, heq⟩ := Option.map_eq_some'.1 h
    cases heq
    exact tokenBucket_shape _ _ _ _ _ _ hlim htb
  · split at h
    · exact slidingWindow_shape _ _ _ _ _ _ _ _ hlim h
    · split at h
      · obtain ⟨⟨r0, s0⟩, hfw, heq⟩ := Option.map_eq_some'.1 h
        cases heq
        exact fixedWindow_shape _ _ _ _ _ _ hlim hfw
      · exact Option.noConfusion h

/-- C3: every completed `checkRateLimit` call increments `totalRequests`
by exactly one; exactly on a denial it also prepends one violation
record (subject to the 100-record cap) and increments `rateLimited` by
one, while an allowed decision changes neither. -/
theorem checkRateLimit_counters (es : EngineState) (clientId endpoint : String) (now : Int)
    (res : RateLimitStatus) (es' : EngineState)
    (h : checkRateLimit es clientId endpoint now = some (res, es')) :
    es'.store.stats.totalRequests = es.store.stats.totalRequests + 1 ∧
    (res.allowed = true →
      es'.store.stats.rateLimitedRequests = es.store.stats.rateLimitedRequests ∧
      es'.store.violations = es.store.violations) ∧
    (res.allowed = false →
      es'.store.stats.rateLimitedRequests = es.store.stats.rateLimitedRequests + 1 ∧
      ∃ v : Violation, es'.store.violations = (v :: es.store.violations).take 100 ∧
        v.clientId = clientId ∧ v.endpoint = endpoint) := by
  unfold checkRateLimit at h
  rcases hcfg : getRateLimitConfig es.store with _ | config <;> rw [hcfg] at h
  · exact Option.noConfusion h
  dsimp only at h
  rcases hd : dispatchAlgorithm es.store es.slidingTimes clientId config now with _ | ⟨result, store1, sliding1⟩ <;>
    rw [hd] at h
  · exact Option.noConfusion h
  dsimp only at h
  obtain ⟨hst, hviol, -⟩ := dispatch_frame _ _ _ _ _ _ _ _ hd
  split at h
  · rename_i hal
    cases h
    refine ⟨?_, fun _ => ⟨?_, ?_⟩, fun hfalse => absurd hal (by simp [hfalse])⟩
    · simp [updateSystemStats, getSystemStats, hst]
    · simp [updateSystemStats, getSystemStats, hst]
    · simp [updateSystemStats, hviol]
  · rename_i hal
    cases h
    have hallowed : res.allowed = false := by
      cases hres : res.allowed
      · rfl
      · exact absurd hres hal
    refine ⟨?_, fun htrue => absurd htrue hal, fun _ => ⟨?_, ?_⟩⟩
    · simp [updateSystemStats, getSystemStats, createViolation, hst]
    · simp [updateSystemStats, getSystemStats, createViolation, hst]
    · refine ⟨⟨store1.currentId, clientId, endpoint, 1, now, false⟩, ?_, rfl, rfl⟩
      simp only [updateSystemStats, createViolation, getSystemStats, hviol]
      split
      · rfl
      · rename_i hlen
        rw [List.take_of_length_le (by omega)]

/-- C8: under an active policy with a positive `requestLimit`, every
decision `checkRateLimit` returns carries `retryAfter` exactly when it
is a denial, and its `remaining` field is a non-negative integer (and 0
on every denial). -/
theorem checkRateLimit_decision_shape (es : EngineState) (clientId endpoint : String)
    (now : Int) (cfg : RateLimitConfig) (res : RateLimitStatus) (es' : EngineState)
    (hcfg : getRateLimitConfig es.store = some cfg) (hlim : 1 ≤ cfg.requestLimit)
    (h : checkRateLimit es clientId endpoint now = some (res, es')) :
    (res.allowed = false ↔ res.retryAfter.isSome) ∧ 0 ≤ res.remaining ∧
    (res.allowed = false → res.remaining = 0) := by
  unfold checkRateLimit at h
  rw [hcfg] at h
  dsimp only at h
  rcases hd : dispatchAlgorithm es.store es.slidingTimes clientId cfg now with _ | ⟨result, store1, sliding1⟩ <;>
    rw [hd] at h
  · exact Option.noConfusion h
  dsimp only at h
  have hshape := dispatch_shape _ _ _ _ _ _ _ _ hlim hd
  split at h <;> (cases h; exact hshape)

/-- C5: a token-bucket denial (non-expired bucket, tokens exhausted)
returns denied/0/`ceil((resetTime-now)/1000)` and writes nothing: the
storage — in particular the client's record — is returned unchanged. -/
theorem tokenBucket_denial_frame (s : MemStorage) (c : String) (cfg : RateLimitConfig)
    (now : Int) (st : ActiveRateLimit) (w : Int)
    (hw : parseTimeWindow cfg.timeWindow = some w)
    (hget : getActiveRateLimit s c = some st)
    (hnow : now < st.resetTime)
    (hcount : st.requestCount ≥ cfg.requestLimit) :
    tokenBucketCheckLimit s c cfg now =
      some ({ allowed := false, remaining := 0, resetTime := st.resetTime,
              retryAfter := some (ceilDiv (st.resetTime - now) 1000) }, s) := by
  unfold tokenBucketCheckLimit
  rw [hw]
  dsimp only
  rw [hget]
  dsimp only
  rw [if_neg (by omega), if_pos hcount]

/-- C6: a fixed-window denial (non-expired window, count at limit)
returns denied/0/`ceil((resetTime-now)/1000)` and still tallies the
attempt: the stored count is incremented, `resetTime` kept, status set
to `blocked`. -/
theorem fixedWindow_denial (s : MemStorage) (c : String) (cfg : RateLimitConfig)
    (now : Int) (st : ActiveRateLimit) (w : Int)
    (hw : parseTimeWindow cfg.timeWindow = some w)
    (hget : getActiveRateLimit s c = some st)
    (hnow : now < st.resetTime)
    (hcount : st.requestCount ≥ cfg.requestLimit) :
    ∃ s', fixedWindowCheckLimit s c cfg now =
      some ({ allowed := false, remaining := 0, resetTime := st.resetTime,
              retryAfter := some (ceilDiv (st.resetTime - now) 1000) }, s') ∧
      ∃ st', getActiveRateLimit s' c = some st' ∧
        st'.requestCount = st.requestCount + 1 ∧
        st'.resetTime = st.resetTime ∧ st'.status = "blocked" := by
  unfold fixedWindowCheckLimit
  rw [hw]
  dsimp only
  rw [hget]
  dsimp only
  rw [if_neg (by omega), if_pos hcount]
  refine ⟨_, rfl, _, upsert_get s _ now, rfl, rfl, rfl⟩

/-- C2 (amended): when no state exists or the stored window has expired,
fixed-window starts a fresh window anchored to the calendar-aligned
boundary: the stored and returned `resetTime` is
`floor(now / windowMs) * windowMs + windowMs`, the count restarts at 1,
and the call is allowed with `remaining = requestLimit - 1`. -/
theorem fixedWindow_newWindow (s : MemStorage) (c : String) (cfg : RateLimitConfig)
    (now : Int) (w : Int)
    (hw : parseTimeWindow cfg.timeWindow = some w)
    (hstate : getActiveRateLimit s c = none ∨
      ∃ st, getActiveRateLimit s c = some st ∧ st.resetTime ≤ now) :
    ∃ s', fixedWindowCheckLimit s c cfg now =
      some ({ allowed := true, remaining := cfg.requestLimit - 1,
              resetTime := floorDiv now w * w + w, retryAfter := none }, s') ∧
      ∃ st', getActiveRateLimit s' c = some st' ∧ st'.requestCount = 1 ∧
        st'.resetTime = floorDiv now w * w + w ∧ st'.status = "active" := by
  unfold fixedWindowCheckLimit
  rw [hw]
  dsimp only
  rcases hstate with hnone | ⟨st, hsome, hexp⟩
  · rw [hnone]
    dsimp only
    refine ⟨_, rfl, _, upsert_get s _ now, rfl, rfl, rfl⟩
  · rw [hsome]
    dsimp only
    rw [if_pos hexp]
    refine ⟨_, rfl, _, upsert_get s _ now, rfl, rfl, rfl⟩

/-- C4: a sliding-window denial: with at least `requestLimit` stored
timestamps still inside the window, the call denies with
`resetTime = oldest + windowMs` and
`retryAfter = ceil((oldest - (now - windowMs)) / 1000)` where `oldest`
is the earliest in-window timestamp; the private timestamp list is left
untouched (the denied request is not appended), and the shared store
receives a `blocked` record with `requestCount = filteredLength + 1`
and `resetTime = oldest + windowMs`. -/
theorem slidingWindow_denial (s : MemStorage) (times : SlidingTimes) (c : String)
    (cfg : RateLimitConfig) (now w : Int) (ts : List Int)
    (hw : parseTimeWindow cfg.timeWindow = some w)
    (hts : (mapGet times c).getD [] = ts)
    (hsorted : ts.Pairwise (fun a b => a ≤ b))
    (hpast : ∀ t ∈ ts, t ≤ now)
    (hlim : 1 ≤ cfg.requestLimit)
    (hcount : ((ts.filter (fun t => now - w < t)).length : Int) ≥ cfg.requestLimit) :
    ∃ oldest rest, ts.filter (fun t => now - w < t) = oldest :: rest ∧
      (∀ x ∈ ts.filter (fun t => now - w < t), oldest ≤ x) ∧
      (∀ x ∈ ts.filter (fun t => now - w < t), now - w < x ∧ x ≤ now) ∧
      ∃ s', slidingWindowCheckLimit s times c cfg now =
        some ({ allowed := false, remaining := 0, resetTime := oldest + w,
                retryAfter := some (ceilDiv (oldest - (now - w)) 1000) }, s', times) ∧
        ∃ st', getActiveRateLimit s' c = some st' ∧ st'.status = "blocked" ∧
          st'.requestCount = ((ts.filter (fun t => now - w < t)).length : Int) + 1 ∧
          st'.resetTime = oldest + w := by
  have hne : ts.filter (fun t => now - w < t) ≠ [] := by
    intro hnil
    rw [hnil] at hcount
    simp at hcount
    omega
  obtain ⟨oldest, rest, hfil⟩ := List.exists_cons_of_ne_nil hne
  have hmin : ∀ x ∈ ts.filter (fun t => now - w < t), oldest ≤ x := by
    have hp : (ts.filter (fun t => now - w < t)).Pairwise (fun a b => a ≤ b) :=
      hsorted.sublist (List.filter_sublist ts)
    rw [hfil] at hp
    intro x hx
    rw [hfil] at hx
    rcases List.mem_cons.1 hx with rfl | hx
    · exact le_refl x
    · exact (List.pairwise_cons.1 hp).1 x hx
  have hin : ∀ x ∈ ts.filter (fun t => now - w < t), now - w < x ∧ x ≤ now := by
    intro x hx
    have h1 := List.of_mem_filter hx
    have h2 := List.mem_of_mem_filter hx
    exact ⟨by simpa using h1, hpast x h2⟩
  refine ⟨oldest, rest, hfil, hmin, hin, ?_⟩
  unfold slidingWindowCheckLimit
  rw [hw]
  dsimp only
  rw [hts, hfil]
  rw [if_pos (by rw [← hfil]; exact hcount)]
  dsimp only [List.head?]
  refine ⟨_, rfl, _, upsert_get s _ now, rfl, ?_, rfl⟩
  rfl

/-- Most-recent-first ordering of the violation log. -/
def violationsSortedDesc (l : List Violation) : Prop :=
  l.Pairwise (fun a b => b.timestamp ≤ a.timestamp)

instance (l : List Violation) : Decidable (violationsSortedDesc l) := by
  unfold violationsSortedDesc; infer_instance

/-- C9: `createViolation` keeps the log at no more than 100 records,
most recent first (the new record is prepended); when 100 records are
already present the evicted record is the last one — the oldest, since
every retained record's timestamp is at least the evicted one's. -/
theorem createViolation_cap (s : MemStorage) (d : InsertViolation) (now : Int)
    (hsorted : violationsSortedDesc s.violations)
    (hpast : ∀ v ∈ s.violations, v.timestamp ≤ now) :
    (createViolation s d now).1.violations.length ≤ 100 ∧
    (createViolation s d now).1.violations =
      ((createViolation s d now).2 :: s.violations).take 100 ∧
    violationsSortedDesc (createViolation s d now).1.violations ∧
    (s.violations.length = 100 →
      (createViolation s d now).1.violations =
        (createViolation s d now).2 :: s.violations.dropLast ∧
      ∀ x ∈ (createViolation s d now).1.violations,
        (s.violations.getLastD (createViolation s d now).2).timestamp ≤ x.timestamp) := by
  set v : Violation :=
    { id := s.currentId, clientId := d.clientId, endpoint := d.endpoint,
      attempts := d.attempts, timestamp := now, isBlocked := d.isBlocked } with hv
  have hfst : (createViolation s d now).1.violations =
      if (v :: s.violations).length > 100 then (v :: s.violations).take 100
      else v :: s.violations := rfl
  have hsnd : (createViolation s d now).2 = v := rfl
  have htake : (createViolation s d now).1.violations = (v :: s.violations).take 100 := by
    rw [hfst]
    split
    · rfl
    · rename_i hlen
      rw [List.take_of_length_le (by simp at hlen ⊢; omega)]
  have hsorted' : violationsSortedDesc (v :: s.violations) := by
    unfold violationsSortedDesc at hsorted ⊢
    exact List.pairwise_cons.2 ⟨fun b hb => hpast b hb, hsorted⟩
  refine ⟨?_, by rw [htake, hsnd], ?_, ?_⟩
  · rw [htake]
    exact le_trans (List.length_take_le 100 _) (le_refl 100)
  · rw [htake]
    exact hsorted'.sublist (List.take_sublist _ _)
  · intro h100
    have hne : s.violations ≠ [] := by
      intro hnil; rw [hnil] at h100; simp at h100
    have hdl : s.violations.dropLast ++ [s.violations.getLastD v] = s.violations := by
      have := List.dropLast_append_getLast hne
      rw [List.getLastD_eq_getLast? , List.getLast?_eq_getLast _ hne]
      simpa using this
    constructor
    · rw [htake, hsnd]
      have : (v :: s.violations).take 100 = v :: s.violations.take 99 := by
        simp [List.take_cons]
      rw [this, List.dropLast_eq_take, h100]
    · rw [hsnd]
      intro x hx
      rw [htake] at hx
      have hx' : x ∈ v :: s.violations := List.mem_of_mem_take hx
      have hlastmem : s.violations.getLastD v ∈ s.violations := by
        rw [List.getLastD_eq_getLast?, List.getLast?_eq_getLast _ hne]
        simpa using List.getLast_mem hne
      rcases List.mem_cons.1 hx' with rfl | hxmem
      · exact hpast _ hlastmem
      · rcases (List.mem_append.1 (by rw [hdl]; exact hxmem :
          x ∈ s.violations.dropLast ++ [s.violations.getLastD v])) with hxd | hxl
        · have hp : List.Pairwise (fun a b => b.timestamp ≤ a.timestamp)
              (s.violations.dropLast ++ [s.violations.getLastD v]) := by
            rw [hdl]; exact hsorted
          exact (List.pairwise_append.1 hp).2.2 x hxd _ (List.mem_singleton_self _)
        · rw [List.eq_of_mem_singleton hxl]

/-- C1 (amended): installing a new policy clears the whole shared
per-client state table, so `getActiveRateLimit` finds nothing for any
client; consequently, when the new active policy runs token-bucket or
fixed-window, the next `checkRateLimit` of every client is allowed.
(Not so for sliding-window: its private timestamp list survives the
policy change — see the counterexample.) -/
theorem updateRateLimitConfig_resets (s : MemStorage) (d : InsertRateLimitConfig)
    (now : Int) (clientId c e : String) (now' : Int) (cfg' : RateLimitConfig) (w : Int)
    (sl : SlidingTimes)
    (hc : getRateLimitConfig (updateRateLimitConfig s d now).1 = some cfg')
    (halg : cfg'.algorithm = "token-bucket" ∨ cfg'.algorithm = "fixed-window")
    (hw : parseTimeWindow cfg'.timeWindow = some w) :
    getActiveRateLimit (updateRateLimitConfig s d now).1 clientId = none ∧
    (checkRateLimit ⟨(updateRateLimitConfig s d now).1, sl⟩ c e now').map
      (fun p => p.1.allowed) = some true := by
  have hclear : (updateRateLimitConfig s d now).1.activeLimits = [] := rfl
  have hnone : ∀ cid, getActiveRateLimit (updateRateLimitConfig s d now).1 cid = none := by
    intro cid
    unfold getActiveRateLimit
    rw [hclear]
    rfl
  refine ⟨hnone clientId, ?_⟩
  unfold checkRateLimit
  rw [hc]
  dsimp only
  rcases halg with halg | halg
  · have hdisp : dispatchAlgorithm (updateRateLimitConfig s d now).1 sl c cfg' now' =
        (tokenBucketCheckLimit (updateRateLimitConfig s d now).1 c cfg' now').map
          (fun p => (p.1, p.2, sl)) := by
      unfold dispatchAlgorithm
      rw [if_pos halg]
    have htb : tokenBucketCheckLimit (updateRateLimitConfig s d now).1 c cfg' now' =
        some ({ allowed := true, remaining := cfg'.requestLimit - 1,
                resetTime := now' + w, retryAfter := none },
          (upsertActiveRateLimit (updateRateLimitConfig s d now).1
            { clientId := c, requestCount := 1, resetTime := now' + w,
              status := "active" } now').1) := by
      unfold tokenBucketCheckLimit
      rw [hw]
      dsimp only
      rw [hnone c]
    rw [hdisp, htb]
    rfl
  · have hdisp : dispatchAlgorithm (updateRateLimitConfig s d now).1 sl c cfg' now' =
        (fixedWindowCheckLimit (updateRateLimitConfig s d now).1 c cfg' now').map
          (fun p => (p.1, p.2, sl)) := by
      unfold dispatchAlgorithm
      have hne : cfg'.algorithm ≠ "token-bucket" := by rw [halg]; decide
      have hne2 : cfg'.algorithm ≠ "sliding-window" := by rw [halg]; decide
      rw [if_neg hne, if_neg hne2, if_pos halg]
    have hfw : fixedWindowCheckLimit (updateRateLimitConfig s d now).1 c cfg' now' =
        some ({ allowed := true, remaining := cfg'.requestLimit - 1,
                resetTime := floorDiv now' w * w + w, retryAfter := none },
          (upsertActiveRateLimit (updateRateLimitConfig s d now).1
            { clientId := c, requestCount := 1,
              resetTime := floorDiv now' w * w + w, status := "active" } now').1) := by
      unfold fixedWindowCheckLimit
      rw [hw]
      dsimp only
      rw [hnone c]
    rw [hdisp, hfw]
    rfl

/-- C10 (amended): an unrecognized `clientIdType` falls back to
`req.ip || '127.0.0.1'` only — it does not run the full IP resolution
chain (forwarded-for / real-ip / remote address are never consulted). -/
theorem getClientId_default (req : Req) (t : String)
    (h1 : t ≠ "ip") (h2 : t ≠ "api-key") (h3 : t ≠ "user-id") :
    getClientId req t = jsSelect req.ip "127.0.0.1" ∧
    (jsTruthy req.ip = false → getClientId req t = "127.0.0.1") ∧
    (∀ sIp : String, req.ip = some sIp → sIp ≠ "" → getClientId req t = sIp) := by
  have hdef : getClientId req t = jsSelect req.ip "127.0.0.1" := by
    unfold getClientId
    rw [if_neg h1, if_neg h2, if_neg h3]
  refine ⟨hdef, ?_, ?_⟩
  · intro hf
    rw [hdef]
    cases hip : req.ip with
    | none => rfl
    | some sIp =>
      rw [hip] at hf
      unfold jsTruthy at hf
      simp only [ne_eq, decide_eq_false_iff_not, not_not] at hf
      simp [jsSelect, hf]
  · intro sIp hip hne
    rw [hdef, hip]
    simp [jsSelect, hne]

/-- C7 (amended): a duration of decimal digits (optionally negative)
followed by unit s/m/h/d parses to the corresponding milliseconds, and
any string whose final character is not a recognized unit defaults to
60000 ms; but a string with a recognized unit and an unparsable numeric
part yields NaN (no numeric result), not the 60000 default. -/
theorem parseTimeWindow_spec (ds : List Char) (h1 : ds ≠ [])
    (h2 : ∀ c ∈ ds, c.isDigit = true) :
    parseTimeWindow (String.mk (ds ++ ['s'])) = some ((digitsToNat ds : Int) * 1000) ∧
    parseTimeWindow (String.mk (ds ++ ['m'])) = some ((digitsToNat ds : Int) * 60000) ∧
    parseTimeWindow (String.mk (ds ++ ['h'])) = some ((digitsToNat ds : Int) * 3600000) ∧
    parseTimeWindow (String.mk (ds ++ ['d'])) = some ((digitsToNat ds : Int) * 86400000) ∧
    parseTimeWindow (String.mk (('-' :: ds) ++ ['s'])) =
      some (-(digitsToNat ds : Int) * 1000) ∧
    (∀ cs : List Char,
      (∀ u, cs.getLast? = some u → u ≠ 's' ∧ u ≠ 'm' ∧ u ≠ 'h' ∧ u ≠ 'd') →
      parseTimeWindow (String.mk cs) = some 60000) :=
  ⟨parseTimeWindow_unit_s ds h1 h2, parseTimeWindow_unit_m ds h1 h2,
   parseTimeWindow_unit_h ds h1 h2, parseTimeWindow_unit_d ds h1 h2,
   parseTimeWindow_neg_s ds h1 h2, fun cs h => parseTimeWindow_default cs h⟩

/-- C7 counterexample: the string `xs` is unparsable (no numeric value),
yet its result is not the 60000 default — the known unit `s` is matched
and the `NaN` numeric part propagates (modelled as no result). -/
theorem parseTimeWindow_nan_counterexample :
    parseTimeWindow (String.mk ['x', 's']) = none ∧
    parseTimeWindow (String.mk ['x', 's']) ≠ some 60000 := by
  constructor
  · rfl
  · decide

/-- C2 counterexample: fixed-window, `timeWindow = "1s"` (1000 ms), a
first request at `now = 500` stores and returns `resetTime = 1000` (the
calendar-aligned boundary), not `now + windowMs = 1500` as claimed. -/
theorem fixedWindow_anchor_counterexample :
    (fixedWindowCheckLimit
        { configs := [], activeLimits := [], violations := [],
          stats := { totalRequests := 0, rateLimitedRequests := 0, avgResponseTime := 0 },
          currentId := 1 }
        "c"
        { id := 1, name := "t", algorithm := "fixed-window", requestLimit := 3,
          timeWindow := "1s", clientIdType := "ip", isActive := true, createdAt := 0 }
        500).map (fun p => p.1.resetTime) = some 1000 ∧
    (fixedWindowCheckLimit
        { configs := [], activeLimits := [], violations := [],
          stats := { totalRequests := 0, rateLimitedRequests := 0, avgResponseTime := 0 },
          currentId := 1 }
        "c"
        { id := 1, name := "t", algorithm := "fixed-window", requestLimit := 3,
          timeWindow := "1s", clientIdType := "ip", isActive := true, createdAt := 0 }
        500).map (fun p => p.1.resetTime) ≠ some (500 + 1000) := by
  constructor
  · rfl
  · decide

/-- C10 counterexample: with no `req.ip` but a forwarded-for header, the
`ip` mode resolves `10.0.0.1` while an unrecognized mode returns the
literal `127.0.0.1` — the fallback is not the full IP chain. -/
theorem getClientId_default_counterexample :
    getClientId
      { ip := none, xForwardedFor := some " 10.0.0.1 , 10.0.0.2",
        xRealIp := some "9.9.9.9", remoteAddress := some "8.8.8.8",
        xApiKey := none, authorization := none, userId := none,
        xUserId := none, userIdHeader := none } "ip" = "10.0.0.1" ∧
    getClientId
      { ip := none, xForwardedFor := some " 10.0.0.1 , 10.0.0.2",
        xRealIp := some "9.9.9.9", remoteAddress := some "8.8.8.8",
        xApiKey := none, authorization := none, userId := none,
        xUserId := none, userIdHeader := none } "session" = "127.0.0.1" ∧
    ("10.0.0.1" : String) ≠ "127.0.0.1" := by
  refine ⟨rfl, rfl, by decide⟩

/-- Scenario showing the sliding-window limiter surviving a policy
swap: a sliding-window policy with limit 1. -/
def swapScenarioCfg : RateLimitConfig :=
  { id := 1, name := "s", algorithm := "sliding-window", requestLimit := 1,
    timeWindow := "10s", clientIdType := "ip", isActive := true, createdAt := 0 }

def swapScenarioEs0 : EngineState :=
  ⟨{ configs := [(1, swapScenarioCfg)], activeLimits := [], violations := [],
     stats := { totalRequests := 0, rateLimitedRequests := 0, avgResponseTime := 0 },
     currentId := 2 }, []⟩

def swapScenarioEs1 : EngineState :=
  ((checkRateLimit swapScenarioEs0 "c" "/x" 100).map (fun p => p.2)).getD swapScenarioEs0

def swapScenarioEs2 : EngineState :=
  ((checkRateLimit swapScenarioEs1 "c" "/x" 120).map (fun p => p.2)).getD swapScenarioEs0

/-- The replacement policy installed at time 150. -/
def swapScenarioUpd : InsertRateLimitConfig :=
  { name := some "s2", algorithm := "sliding-window", requestLimit := 1,
    timeWindow := "10s", clientIdType := "ip", isActive := some true }

def swapScenarioEs3 : EngineState :=
  ⟨(updateRateLimitConfig swapScenarioEs2.store swapScenarioUpd 150).1,
    swapScenarioEs2.slidingTimes⟩

/-- C1 counterexample: client `c` is allowed at t=100, blocked at t=120
under the sliding-window policy; the policy update at t=150 empties the
per-client state table, yet the client's next request at t=200 is still
denied — the sliding-window limiter's private timestamp list survived
the swap, refuting "allowed again on its next checkRateLimit call under
every algorithm". -/
theorem policySwap_sliding_counterexample :
    (checkRateLimit swapScenarioEs0 "c" "/x" 100).map (fun p => p.1.allowed) = some true ∧
    (checkRateLimit swapScenarioEs1 "c" "/x" 120).map (fun p => p.1.allowed) = some false ∧
    getActiveRateLimit swapScenarioEs3.store "c" = none ∧
    (checkRateLimit swapScenarioEs3 "c" "/x" 200).map (fun p => p.1.allowed) = some false := by
  refine ⟨rfl, rfl, rfl, rfl⟩

/-! ### Concrete witness scenarios -/

def wStoreEmpty : MemStorage :=
  { configs := [], activeLimits := [], violations := [],
    stats := { totalRequests := 0, rateLimitedRequests := 0, avgResponseTime := 0 },
    currentId := 1 }

def wCfgFW : RateLimitConfig :=
  { id := 1, name := "w", algorithm := "fixed-window", requestLimit := 100,
    timeWindow := "1m", clientIdType := "ip", isActive := true, createdAt := 0 }

def wEsFW : EngineState :=
  ⟨{ wStoreEmpty with configs := [(1, wCfgFW)], currentId := 2 }, []⟩

def wPair : RateLimitStatus × EngineState :=
  (checkRateLimit wEsFW "c" "/x" 0).getD
    ({ allowed := false, remaining := 0, resetTime := 0, retryAfter := none }, wEsFW)

theorem checkRateLimit_counters_witness :
    wPair.2.store.stats.totalRequests = wEsFW.store.stats.totalRequests + 1 ∧
    (wPair.1.allowed = true →
      wPair.2.store.stats.rateLimitedRequests = wEsFW.store.stats.rateLimitedRequests ∧
      wPair.2.store.violations = wEsFW.store.violations) ∧
    (wPair.1.allowed = false →
      wPair.2.store.stats.rateLimitedRequests = wEsFW.store.stats.rateLimitedRequests + 1 ∧
      ∃ v : Violation, wPair.2.store.violations = (v :: wEsFW.store.violations).take 100 ∧
        v.clientId = "c" ∧ v.endpoint = "/x") :=
  checkRateLimit_counters wEsFW "c" "/x" 0 wPair.1 wPair.2 (by decide)

theorem checkRateLimit_decision_shape_witness :
    (wPair.1.allowed = false ↔ wPair.1.retryAfter.isSome) ∧ 0 ≤ wPair.1.remaining ∧
    (wPair.1.allowed = false → wPair.1.remaining = 0) :=
  checkRateLimit_decision_shape wEsFW "c" "/x" 0 wCfgFW wPair.1 wPair.2
    (by decide) (by decide) (by decide)

def wStTB : ActiveRateLimit :=
  { id := 1, clientId := "c", requestCount := 5, resetTime := 1000,
    status := "active", lastRequest := 400 }

def wStoreTB : MemStorage := { wStoreEmpty with activeLimits := [("c", wStTB)], currentId := 2 }

def wCfgTB : RateLimitConfig :=
  { id := 1, name := "w", algorithm := "token-bucket", requestLimit := 5,
    timeWindow := "1s", clientIdType := "ip", isActive := true, createdAt := 0 }

theorem tokenBucket_denial_frame_witness :
    tokenBucketCheckLimit wStoreTB "c" wCfgTB 500 =
      some ({ allowed := false, remaining := 0, resetTime := 1000,
              retryAfter := some (ceilDiv (1000 - 500) 1000) }, wStoreTB) :=
  tokenBucket_denial_frame wStoreTB "c" wCfgTB 500 wStTB 1000
    (by decide) (by decide) (by decide) (by decide)

def wCfgFW5 : RateLimitConfig :=
  { id := 1, name := "w", algorithm := "fixed-window", requestLimit := 5,
    timeWindow := "1m", clientIdType := "ip", isActive := true, createdAt := 0 }

theorem fixedWindow_denial_witness :
    ∃ s', fixedWindowCheckLimit wStoreTB "c" wCfgFW5 500 =
      some ({ allowed := false, remaining := 0, resetTime := 1000,
              retryAfter := some (ceilDiv (1000 - 500) 1000) }, s') ∧
      ∃ st', getActiveRateLimit s' "c" = some st' ∧
        st'.requestCount = 5 + 1 ∧ st'.resetTime = 1000 ∧ st'.status = "blocked" :=
  fixedWindow_denial wStoreTB "c" wCfgFW5 500 wStTB 60000
    (by decide) (by decide) (by decide) (by decide)

theorem fixedWindow_newWindow_witness :
    ∃ s', fixedWindowCheckLimit wStoreEmpty "c" wCfgTB 500 =
      some ({ allowed := true, remaining := wCfgTB.requestLimit - 1,
              resetTime := floorDiv 500 1000 * 1000 + 1000, retryAfter := none }, s') ∧
      ∃ st', getActiveRateLimit s' "c" = some st' ∧ st'.requestCount = 1 ∧
        st'.resetTime = floorDiv 500 1000 * 1000 + 1000 ∧ st'.status = "active" :=
  fixedWindow_newWindow wStoreEmpty "c" wCfgTB 500 1000 (by decide) (Or.inl (by decide))

def wTimesSW : SlidingTimes := [("c", [100])]

def wCfgSW : RateLimitConfig :=
  { id := 1, name := "w", algorithm := "sliding-window", requestLimit := 1,
    timeWindow := "10s", clientIdType := "ip", isActive := true, createdAt := 0 }

theorem slidingWindow_denial_witness :
    ∃ oldest rest, ([100] : List Int).filter (fun t => (200 : Int) - 10000 < t) = oldest :: rest ∧
      (∀ x ∈ ([100] : List Int).filter (fun t => (200 : Int) - 10000 < t), oldest ≤ x) ∧
      (∀ x ∈ ([100] : List Int).filter (fun t => (200 : Int) - 10000 < t),
        (200 : Int) - 10000 < x ∧ x ≤ 200) ∧
      ∃ s', slidingWindowCheckLimit wStoreEmpty wTimesSW "c" wCfgSW 200 =
        some ({ allowed := false, remaining := 0, resetTime := oldest + 10000,
                retryAfter := some (ceilDiv (oldest - (200 - 10000)) 1000) }, s', wTimesSW) ∧
        ∃ st', getActiveRateLimit s' "c" = some st' ∧ st'.status = "blocked" ∧
          st'.requestCount =
            ((([100] : List Int).filter (fun t => (200 : Int) - 10000 < t)).length : Int) + 1 ∧
          st'.resetTime = oldest + 10000 :=
  slidingWindow_denial wStoreEmpty wTimesSW "c" wCfgSW 200 10000 [100]
    (by decide) (by decide) (by decide) (by decide) (by decide) (by decide)

theorem parseTimeWindow_spec_witness :
    parseTimeWindow (String.mk (['3', '0'] ++ ['s'])) =
      some ((digitsToNat ['3', '0'] : Int) * 1000) ∧
    parseTimeWindow (String.mk (['3', '0'] ++ ['m'])) =
      some ((digitsToNat ['3', '0'] : Int) * 60000) ∧
    parseTimeWindow (String.mk (['3', '0'] ++ ['h'])) =
      some ((digitsToNat ['3', '0'] : Int) * 3600000) ∧
    parseTimeWindow (String.mk (['3', '0'] ++ ['d'])) =
      some ((digitsToNat ['3', '0'] : Int) * 86400000) ∧
    parseTimeWindow (String.mk (('-' :: ['3', '0']) ++ ['s'])) =
      some (-(digitsToNat ['3', '0'] : Int) * 1000) ∧
    (∀ cs : List Char,
      (∀ u, cs.getLast? = some u → u ≠ 's' ∧ u ≠ 'm' ∧ u ≠ 'h' ∧ u ≠ 'd') →
      parseTimeWindow (String.mk cs) = some 60000) :=
  parseTimeWindow_spec ['3', '0'] (by decide) (by decide)

def wViol : Violation :=
  { id := 1, clientId := "a", endpoint := "/e", attempts := 1, timestamp := 50,
    isBlocked := false }

def wStoreV : MemStorage := { wStoreEmpty with violations := [wViol], currentId := 2 }

def wInsV : InsertViolation :=
  { clientId := "b", endpoint := "/f", attempts := 1, isBlocked := false }

theorem createViolation_cap_witness :
    (createViolation wStoreV wInsV 60).1.violations.length ≤ 100 ∧
    (createViolation wStoreV wInsV 60).1.violations =
      ((createViolation wStoreV wInsV 60).2 :: wStoreV.violations).take 100 ∧
    violationsSortedDesc (createViolation wStoreV wInsV 60).1.violations ∧
    (wStoreV.violations.length = 100 →
      (createViolation wStoreV wInsV 60).1.violations =
        (createViolation wStoreV wInsV 60).2 :: wStoreV.violations.dropLast ∧
      ∀ x ∈ (createViolation wStoreV wInsV 60).1.violations,
        (wStoreV.violations.getLastD (createViolation wStoreV wInsV 60).2).timestamp ≤
          x.timestamp) :=
  createViolation_cap wStoreV wInsV 60 (by decide) (by decide)

def wUpdTB : InsertRateLimitConfig :=
  { name := some "n", algorithm := "token-bucket", requestLimit := 5,
    timeWindow := "1s", clientIdType := "ip", isActive := some true }

def wNewCfgTB : RateLimitConfig :=
  { id := 1, name := "n", algorithm := "token-bucket", requestLimit := 5,
    timeWindow := "1s", clientIdType := "ip", isActive := true, createdAt := 0 }

theorem updateRateLimitConfig_resets_witness :
    getActiveRateLimit (updateRateLimitConfig wStoreEmpty wUpdTB 0).1 "a" = none ∧
    (checkRateLimit ⟨(updateRateLimitConfig wStoreEmpty wUpdTB 0).1, []⟩ "c" "/x" 100).map
      (fun p => p.1.allowed) = some true :=
  updateRateLimitConfig_resets wStoreEmpty wUpdTB 0 "a" "c" "/x" 100 wNewCfgTB 1000 []
    (by decide) (Or.inl (by decide)) (by decide)

def wReq : Req :=
  { ip := some "1.2.3.4", xForwardedFor := none, xRealIp := none,
    remoteAddress := none, xApiKey := none, authorization := none,
    userId := none, xUserId := none, userIdHeader := none }

theorem getClientId_default_witness :
    getClientId wReq "zzz" = jsSelect wReq.ip "127.0.0.1" ∧
    (jsTruthy wReq.ip = false → getClientId wReq "zzz" = "127.0.0.1") ∧
    (∀ sIp : String, wReq.ip = some sIp → sIp ≠ "" → getClientId wReq "zzz" = sIp) :=
  getClientId_default wReq "zzz" (by decide) (by decide) (by decide)

end FluxControl
